import Mathlib

/-
  Verification development for the BackendGP repository
  (src/routes/authentication.js and src/routes/admin.js).

  The route handlers are shallowly embedded as pure Lean functions.
  External collaborators (the MySQL gateway, bcrypt, express-validator
  email checking, crypto token generation, the filesystem) are modelled
  at their interface: database query outcomes and the bcrypt hash /
  compare functions are passed in as explicit parameters, and the
  relevant tables are explicit lists of rows.  Machine-level details
  the handlers never touch (connection pooling, SQL text, JSON wire
  format) are elided; everything the handlers branch on is kept.
-/

/-! ## String helpers (express-validator isInt, JS String.includes) -/

/-- All characters are decimal digits and there is at least one. -/
def digitChars : List Char → Bool
  | [] => false
  | [c] => c.isDigit
  | c :: cs => c.isDigit && digitChars cs

/-- express-validator `isInt`: an optional sign followed by one or
more decimal digits (the default options used at
src/routes/authentication.js line 18). -/
def isIntString (s : String) : Bool :=
  match s.data with
  | [] => false
  | c :: cs =>
    if c = '+' || c = '-' then digitChars cs else digitChars (c :: cs)

/-- Value of a list of decimal digits. -/
def decVal (cs : List Char) : Nat :=
  cs.foldl (fun acc c => acc * 10 + (c.toNat - '0'.toNat)) 0

/-- Numeric value of a decimal string accepted by `isIntString`
(the gateway coerces the string parameter to the integer column). -/
def parseIntString (s : String) : Int :=
  match s.data with
  | [] => 0
  | c :: cs =>
    if c = '-' then -(decVal cs : Int)
    else if c = '+' then (decVal cs : Int)
    else (decVal (c :: cs) : Int)

/-- Is `pat` a prefix of `l`? -/
def charsPrefixOf : List Char → List Char → Bool
  | [], _ => true
  | _ :: _, [] => false
  | a :: as, b :: bs => a == b && charsPrefixOf as bs

/-- Does `pat` occur contiguously inside `l`? -/
def charsInfixOf (pat : List Char) : List Char → Bool
  | [] => charsPrefixOf pat []
  | c :: cs => charsPrefixOf pat (c :: cs) || charsInfixOf pat cs

/-- JS `String.prototype.includes`, used by the professor-register
catch block (src/routes/admin.js line 106). -/
def jsIncludes (s sub : String) : Bool :=
  charsInfixOf sub.data s.data

/-! ## Students table and login (src/routes/authentication.js lines 15-75) -/

/-- One row of the `students` table. -/
structure StudentRow where
  student_id : Int
  student_name : String
  student_email : String
  student_password : String
  student_department : String
  student_project_id : Option Nat
  student_token : String
deriving DecidableEq

/-- Rendering of an optional integer column in a JSON response. -/
def optNatField : Option Nat → String
  | none => "null"
  | some n => toString n

/-- A JSON response body as the handlers build them: either a
structured field-error list, a single error message, or a record
serialized as an association list of fields. -/
inductive ResBody where
  | errors (msgs : List String)
  | errorMsg (msg : String)
  | record (fields : List (String × String))
deriving DecidableEq

/-- Validation errors collected by the two `body(...)` validators on
POST /student-login (lines 17-22): `student_id` must be an integer
string and `password` must be 8-12 characters. -/
def loginValidationErrors (student_id password : String) : List String :=
  (if isIntString student_id then []
   else ["Please enter a valid student ID (integer)"]) ++
  (if 8 ≤ password.length ∧ password.length ≤ 12 then []
   else ["Password should be between (8-12) characters"])

/-- The generic authentication failure body sent by POST /student-login
for both a missing student ID and a wrong password (lines 37-43 and
62-68): one `msg` entry, never saying which field was wrong. -/
def loginNotFoundBody : ResBody :=
  ResBody.errors ["Student ID or password not found!"]

/-- The 200 body of POST /student-login: `student[0]` with
`student_password` deleted and `student_token` overwritten by the
freshly generated token (lines 52-60), serialized in field order. -/
def loginSuccessBody (s : StudentRow) (newToken : String) : ResBody :=
  ResBody.record
    [("student_id", toString s.student_id),
     ("student_name", s.student_name),
     ("student_email", s.student_email),
     ("student_department", s.student_department),
     ("student_project_id", optNatField s.student_project_id),
     ("student_token", newToken)]

/-- Outcome of one POST /student-login request: the HTTP status, the
JSON body, and whether the handler issued any database query. -/
structure LoginOutcome where
  status : Nat
  body : ResBody
  dbQueried : Bool
deriving DecidableEq

/-- POST /student-login (lines 15-75).  `bcompare` is bcrypt.compare,
`newToken` the value of `crypto.randomBytes(16).toString("hex")`.
The lookup `select * from students where student_id = ?` is the
filter of the students table by the coerced integer ID. -/
def studentLogin (db : List StudentRow) (student_id password : String)
    (bcompare : String → String → Bool) (newToken : String) : LoginOutcome :=
  if loginValidationErrors student_id password = [] then
    match db.filter (fun s => s.student_id == parseIntString student_id) with
    | [] => { status := 404, body := loginNotFoundBody, dbQueried := true }
    | s :: _ =>
      if bcompare password s.student_password then
        { status := 200, body := loginSuccessBody s newToken, dbQueried := true }
      else
        { status := 404, body := loginNotFoundBody, dbQueried := true }
  else
    { status := 400,
      body := ResBody.errors (loginValidationErrors student_id password),
      dbQueried := false }

/-! ## Theorems for C8 and C10 -/

/-- C8: for every POST /student-login request that passes validation, a
login with an existing ID but wrong password and a login with a
nonexistent ID both return status 404 with the identical generic error
body, and on a correct password the 200 response contains the student
record with the password field removed. -/
theorem student_login_generic_404_and_password_stripped
    (db : List StudentRow) (sid pw : String)
    (bcompare : String → String → Bool) (tok : String)
    (hvalid : loginValidationErrors sid pw = []) :
    ((db.filter (fun s => s.student_id == parseIntString sid)) = [] →
       studentLogin db sid pw bcompare tok =
         { status := 404, body := loginNotFoundBody, dbQueried := true }) ∧
    (∀ s rest, db.filter (fun s => s.student_id == parseIntString sid) = s :: rest →
       bcompare pw s.student_password = false →
       studentLogin db sid pw bcompare tok =
         { status := 404, body := loginNotFoundBody, dbQueried := true }) ∧
    (∀ s rest, db.filter (fun s => s.student_id == parseIntString sid) = s :: rest →
       bcompare pw s.student_password = true →
       (studentLogin db sid pw bcompare tok).status = 200 ∧
       (studentLogin db sid pw bcompare tok).body = loginSuccessBody s tok ∧
       ∀ kv ∈ [("student_id", toString s.student_id),
               ("student_name", s.student_name),
               ("student_email", s.student_email),
               ("student_department", s.student_department),
               ("student_project_id", optNatField s.student_project_id),
               ("student_token", tok)], kv.1 ≠ "student_password") := by
  refine ⟨?_, ?_, ?_⟩
  · intro hnone
    unfold studentLogin
    rw [if_pos hvalid, hnone]
  · intro s rest hsome hcmp
    unfold studentLogin
    rw [if_pos hvalid, hsome]
    simp [hcmp]
  · intro s rest hsome hcmp
    unfold studentLogin
    rw [if_pos hvalid, hsome]
    refine ⟨by simp [hcmp], by simp [hcmp], ?_⟩
    intro kv hkv
    fin_cases hkv <;> simp

/-- Concrete instantiation of
`student_login_generic_404_and_password_stripped`. -/
theorem student_login_generic_404_and_password_stripped_w :
    loginValidationErrors "123" "password1" = [] ∧
    (studentLogin [] "123" "password1" (fun _ _ => true) "t").status = 404 := by
  have h := student_login_generic_404_and_password_stripped
    [] "123" "password1" (fun _ _ => true) "t" (by decide)
  refine ⟨by decide, ?_⟩
  rw [h.1 (by simp)]

/-- C10: a POST /student-login request whose student_id is not an
integer string or whose password length is outside 8-12 characters is
answered 400 with the structured field-error list before any database
lookup. -/
theorem student_login_validation_400_before_db
    (db : List StudentRow) (sid pw : String)
    (bcompare : String → String → Bool) (tok : String)
    (hbad : ¬ (isIntString sid = true ∧ 8 ≤ pw.length ∧ pw.length ≤ 12)) :
    (studentLogin db sid pw bcompare tok).status = 400 ∧
    (studentLogin db sid pw bcompare tok).body =
      ResBody.errors (loginValidationErrors sid pw) ∧
    loginValidationErrors sid pw ≠ [] ∧
    (studentLogin db sid pw bcompare tok).dbQueried = false := by
  have herrs : loginValidationErrors sid pw ≠ [] := by
    unfold loginValidationErrors
    by_cases h1 : isIntString sid = true
    · by_cases h2 : 8 ≤ pw.length ∧ pw.length ≤ 12
      · exact absurd ⟨h1, h2⟩ hbad
      · rw [if_pos h1, if_neg h2]
        simp
    · rw [if_neg (by simpa using h1)]
      simp
  unfold studentLogin
  rw [if_neg herrs]
  exact ⟨rfl, rfl, herrs, rfl⟩

/-- Concrete instantiation of `student_login_validation_400_before_db`:
a seven-character password fails validation. -/
theorem student_login_validation_400_before_db_w :
    (studentLogin [] "123" "short" (fun _ _ => true) "t").status = 400 ∧
    (studentLogin [] "123" "short" (fun _ _ => true) "t").dbQueried = false := by
  have h := student_login_validation_400_before_db
    [] "123" "short" (fun _ _ => true) "t" (by decide)
  exact ⟨h.1, h.2.2.2⟩

/-! ## Student and professor registration
(src/routes/authentication.js lines 78-147, src/routes/admin.js lines 49-115) -/

/-- Is `pat` a suffix of `l`? -/
def charsSuffixOf (pat l : List Char) : Bool :=
  charsPrefixOf pat.reverse l.reverse

/-- JS `String.prototype.endsWith`, used by the email-domain custom
validators. -/
def jsEndsWith (s suf : String) : Bool :=
  charsSuffixOf suf.data s.data

/-- A gateway error as the mysql driver surfaces it to catch blocks. -/
structure SqlError where
  sqlMessage : String
deriving DecidableEq

/-- POST /student-register body (the handler reads exactly these
fields; `student_id` carries whatever integer the client sent — the
route declares no validator for it). -/
structure StudentRegisterReq where
  email : String
  student_name : String
  password : String
  student_department : String
  student_id : Int
deriving DecidableEq

/-- Validation errors of POST /student-register (lines 80-96):
`isEmail` is the external email-format validator; the `isString` check
on `student_name` always passes for a JSON string and is elided. -/
def studentRegisterValidationErrors (isEmail : String → Bool)
    (req : StudentRegisterReq) : List String :=
  (if isEmail req.email = false then ["Please enter a valid email!"]
   else if jsEndsWith req.email "@fci.helwan.edu.eg" = false then
     ["Email domain must be @fci.helwan.edu.eg"] else []) ++
  (if 10 ≤ req.student_name.length ∧ req.student_name.length ≤ 20 then []
   else ["Name should be between (10-20) characters"]) ++
  (if 8 ≤ req.password.length ∧ req.password.length ≤ 12 then []
   else ["Password should be between (8-12) characters"])

/-- The `studentData` object built at lines 128-136: the password is
stored as `bcrypt.hash(req.body.password, 10)` and the token comes
from `crypto.randomBytes(16).toString("hex")`. -/
def mkStudentData (req : StudentRegisterReq) (bhash : String → String)
    (token : String) : StudentRow :=
  { student_id := req.student_id,
    student_name := req.student_name,
    student_email := req.email,
    student_password := bhash req.password,
    student_department := req.student_department,
    student_project_id := none,
    student_token := token }

/-- The 201 response body of POST /student-register: `studentData`
after `delete studentData.student_password` (line 140), in field
order. -/
def studentDataResponseFields (r : StudentRow) : List (String × String) :=
  [("student_id", toString r.student_id),
   ("student_name", r.student_name),
   ("student_email", r.student_email),
   ("student_department", r.student_department),
   ("student_project_id", optNatField r.student_project_id),
   ("student_token", r.student_token)]

/-- Outcome of one POST /student-register request: status, body, and
the row the insert wrote when it succeeded. -/
structure RegisterOutcome where
  status : Nat
  body : ResBody
  insertedRow : Option StudentRow
deriving DecidableEq

/-- POST /student-register (lines 78-147).  `insertOutcome` is the
gateway result of `insert into students set ?`; any insert error lands
in the catch block, which answers 500 unconditionally. -/
def studentRegister (db : List StudentRow) (req : StudentRegisterReq)
    (isEmail : String → Bool) (bhash : String → String) (token : String)
    (insertOutcome : Except SqlError Unit) : RegisterOutcome :=
  if studentRegisterValidationErrors isEmail req = [] then
    if (db.filter (fun s => s.student_id == req.student_id)).length > 0 then
      { status := 409, body := ResBody.errorMsg "Student ID already exists!",
        insertedRow := none }
    else if (db.filter (fun s => s.student_email == req.email)).length > 0 then
      { status := 409, body := ResBody.errorMsg "Email already exists!",
        insertedRow := none }
    else
      match insertOutcome with
      | Except.error _ =>
        { status := 500, body := ResBody.errorMsg "Server error",
          insertedRow := none }
      | Except.ok _ =>
        { status := 201,
          body := ResBody.record
            (studentDataResponseFields (mkStudentData req bhash token)),
          insertedRow := some (mkStudentData req bhash token) }
  else
    { status := 400,
      body := ResBody.errors (studentRegisterValidationErrors isEmail req),
      insertedRow := none }

/-- POST /professor-register body (src/routes/admin.js lines 64-98). -/
structure ProfessorRegisterReq where
  professor_email : String
  password : String
  professor_department : String
  professor_id : String
  professor_name : String
deriving DecidableEq

/-- Validation errors of POST /professor-register (lines 66-83); the
`isString` check on `professor_department` always passes for a JSON
string and is elided. -/
def professorRegisterValidationErrors (isEmail : String → Bool)
    (req : ProfessorRegisterReq) : List String :=
  (if isEmail req.professor_email = false then ["Please enter a valid email"]
   else if jsEndsWith req.professor_email "@fci.helwan.edu.eg" = false then
     ["Email domain must be @fci.helwan.edu.eg"] else []) ++
  (if 8 ≤ req.password.length ∧ req.password.length ≤ 12 then []
   else ["Password should be between 8 to 12 characters"]) ++
  (if isIntString req.professor_id then []
   else ["Please enter a valid professor ID (integer)"])

/-- The 201 response body of POST /professor-register:
`professorData` after `delete professorData.professor_password`
(line 101), in field order. -/
def professorDataResponseFields (req : ProfessorRegisterReq)
    (token : String) : List (String × String) :=
  [("professor_id", req.professor_id),
   ("professor_name", req.professor_name),
   ("professor_email", req.professor_email),
   ("professor_department", req.professor_department),
   ("professor_token", token)]

/-- Status and body of one POST /professor-register request. -/
structure ProfessorRegisterOutcome where
  status : Nat
  body : ResBody
deriving DecidableEq

/-- POST /professor-register (src/routes/admin.js lines 64-115).  Its
catch block (lines 103-113) maps an insert error whose `sqlMessage`
contains "Duplicate entry" to 409, everything else to 500. -/
def professorRegister (req : ProfessorRegisterReq) (isEmail : String → Bool)
    (_bhash : String → String) (token : String)
    (insertOutcome : Except SqlError Unit) : ProfessorRegisterOutcome :=
  if professorRegisterValidationErrors isEmail req = [] then
    match insertOutcome with
    | Except.ok _ =>
      { status := 201,
        body := ResBody.record (professorDataResponseFields req token) }
    | Except.error e =>
      if jsIncludes e.sqlMessage "Duplicate entry" then
        { status := 409,
          body := ResBody.errorMsg "Duplicate entry for Professor ID or Email" }
      else
        { status := 500, body := ResBody.errorMsg "Server error" }
  else
    { status := 400,
      body := ResBody.errors (professorRegisterValidationErrors isEmail req) }

/-! ## Theorems for C6 and C9 -/

/-- Sample valid student-register request used in concrete checks. -/
def demoStudentReq : StudentRegisterReq :=
  { email := "student123@fci.helwan.edu.eg",
    student_name := "Alice Johnson",
    password := "secretpw1",
    student_department := "CS",
    student_id := 123 }

/-- Sample valid professor-register request used in concrete checks. -/
def demoProfReq : ProfessorRegisterReq :=
  { professor_email := "prof1@fci.helwan.edu.eg",
    password := "profpass1",
    professor_department := "CS",
    professor_id := "77",
    professor_name := "Bob Stone" }

/-- C6 counterexample: a valid student registration whose ID and email
pass the pre-checks but whose insert fails with a duplicate-key
violation is answered 500 by POST /student-register, not 409 — its
catch block has no duplicate-entry case. -/
theorem student_register_insert_duplicate_gives_500 :
    studentRegisterValidationErrors (fun _ => true) demoStudentReq = [] ∧
    jsIncludes "Duplicate entry 123 for key PRIMARY" "Duplicate entry" = true ∧
    (studentRegister [] demoStudentReq (fun _ => true) (fun _ => "h") "tok"
      (Except.error { sqlMessage := "Duplicate entry 123 for key PRIMARY" })).status
      = 500 ∧
    (500 : Nat) ≠ 409 := by
  refine ⟨by decide, by decide, by decide, by decide⟩

/-- C6 amended: a duplicate-key violation during the insert is
answered 409 by POST /professor-register, whose catch block tests the
error message, but 500 by POST /student-register, whose catch block
does not distinguish duplicate keys (duplicates are normally caught by
its two pre-checks, which answer 409 before the insert). -/
theorem register_insert_duplicate_key_statuses
    (db : List StudentRow) (sreq : StudentRegisterReq)
    (preq : ProfessorRegisterReq) (isEmail : String → Bool)
    (bhash : String → String) (token : String) (e : SqlError)
    (hpv : professorRegisterValidationErrors isEmail preq = [])
    (hdup : jsIncludes e.sqlMessage "Duplicate entry" = true)
    (hsv : studentRegisterValidationErrors isEmail sreq = [])
    (hid : db.filter (fun s => s.student_id == sreq.student_id) = [])
    (hemail : db.filter (fun s => s.student_email == sreq.email) = []) :
    (professorRegister preq isEmail bhash token (Except.error e)).status = 409 ∧
    (studentRegister db sreq isEmail bhash token (Except.error e)).status = 500 := by
  constructor
  · unfold professorRegister
    rw [if_pos hpv]
    simp [hdup]
  · unfold studentRegister
    rw [if_pos hsv, hid, hemail]
    simp

/-- Concrete instantiation of `register_insert_duplicate_key_statuses`. -/
theorem register_insert_duplicate_key_statuses_w :
    (professorRegister demoProfReq (fun _ => true) (fun _ => "h") "tok"
       (Except.error { sqlMessage := "Duplicate entry 77" })).status = 409 ∧
    (studentRegister [] demoStudentReq (fun _ => true) (fun _ => "h") "tok"
       (Except.error { sqlMessage := "Duplicate entry 77" })).status = 500 :=
  register_insert_duplicate_key_statuses [] demoStudentReq demoProfReq
    (fun _ => true) (fun _ => "h") "tok" { sqlMessage := "Duplicate entry 77" }
    (by decide) (by decide) (by decide) rfl rfl

/-- A stand-in for bcrypt.hash honouring its output format: every
bcrypt hash string is exactly 60 characters long. -/
def demoHash (_p : String) : String :=
  String.mk (List.replicate 60 'h')

/-- C9: a valid student registration with a unique ID and email stores
the bcrypt hash of the submitted password, which never equals the
plaintext (a bcrypt hash is 60 characters, a validated password at
most 12), and the 201 response body carries no password field. -/
theorem student_register_password_hygiene
    (db : List StudentRow) (req : StudentRegisterReq)
    (isEmail : String → Bool) (bhash : String → String) (token : String)
    (hlen : ∀ p, (bhash p).length = 60)
    (hval : studentRegisterValidationErrors isEmail req = [])
    (hid : db.filter (fun s => s.student_id == req.student_id) = [])
    (hemail : db.filter (fun s => s.student_email == req.email) = []) :
    (studentRegister db req isEmail bhash token (Except.ok ())).status = 201 ∧
    (studentRegister db req isEmail bhash token (Except.ok ())).insertedRow =
      some (mkStudentData req bhash token) ∧
    (mkStudentData req bhash token).student_password = bhash req.password ∧
    bhash req.password ≠ req.password ∧
    (studentRegister db req isEmail bhash token (Except.ok ())).body =
      ResBody.record (studentDataResponseFields (mkStudentData req bhash token)) ∧
    (∀ kv ∈ studentDataResponseFields (mkStudentData req bhash token),
       kv.1 ≠ "student_password") := by
  have hplen : 8 ≤ req.password.length ∧ req.password.length ≤ 12 := by
    by_cases h : 8 ≤ req.password.length ∧ req.password.length ≤ 12
    · exact h
    · exfalso
      unfold studentRegisterValidationErrors at hval
      rcases List.append_eq_nil.mp hval with ⟨_, hC⟩
      rw [if_neg h] at hC
      cases hC
  have hne : bhash req.password ≠ req.password := by
    intro heq
    have hl := hlen req.password
    rw [heq] at hl
    omega
  have hrun : studentRegister db req isEmail bhash token (Except.ok ()) =
      { status := 201,
        body := ResBody.record
          (studentDataResponseFields (mkStudentData req bhash token)),
        insertedRow := some (mkStudentData req bhash token) } := by
    unfold studentRegister
    rw [if_pos hval, hid, hemail]
    simp
  rw [hrun]
  refine ⟨rfl, rfl, rfl, hne, rfl, ?_⟩
  intro kv hkv
  fin_cases hkv <;> simp [studentDataResponseFields, mkStudentData]

/-- Every `demoHash` output is 60 characters, like a bcrypt hash. -/
theorem demoHash_length (p : String) : (demoHash p).length = 60 := rfl

/-- Concrete instantiation of `student_register_password_hygiene`. -/
theorem student_register_password_hygiene_w :
    (studentRegister [] demoStudentReq (fun _ => true) demoHash "tok"
       (Except.ok ())).status = 201 ∧
    demoHash demoStudentReq.password ≠ demoStudentReq.password :=
  have h := student_register_password_hygiene [] demoStudentReq
    (fun _ => true) demoHash "tok" demoHash_length (by decide) rfl rfl
  ⟨h.1, h.2.2.2.1⟩

/-! ## Project registration (src/routes/authentication.js lines 169-304)

The handler runs a straight-line sequence of gateway calls
(checkExistingStudents, startTransaction, insertProject, one
insertProjectStudent per teammate, commitTransaction).  Each call can
reject; `fail` says which calls do.  The connection state keeps the
committed database and, while a transaction is open, its pending view:
writes inside the transaction touch only the pending view, commit
installs it, rollback discards it.  The module never imports `fs`, so
the `fs.unlink` in the catch block (line 230) throws a ReferenceError
whenever it is reached. -/

/-- One row of the `projects` table as INSERTed by `insertProject`
(line 287): `approval_status` and `total_votes` are hardcoded in the
SQL to `pending` and `0`. -/
structure ProjectRow where
  project_id : Nat
  title : String
  description : String
  supervisor_name : String
  graduation_year : String
  graduation_term : String
  department_name : String
  project_files_path : Option String
  github_link : String
  approval_status : String
  total_votes : Nat
deriving DecidableEq

/-- One row of the `project_students` (team membership) table. -/
structure ProjectStudentRow where
  project_id : Nat
  student_name : String
  student_id : Int
deriving DecidableEq

/-- One entry of the request's `teammateData` array. -/
structure Teammate where
  name : String
  studentId : Int
deriving DecidableEq

/-- The two tables POST /register-project writes, plus the projects
AUTO_INCREMENT counter that produces `insertId`. -/
structure ProjectsDb where
  projects : List ProjectRow
  project_students : List ProjectStudentRow
  nextProjectId : Nat
deriving DecidableEq

/-- The shared connection: committed data, and the pending view of an
open transaction if one is active. -/
structure ConnState where
  committed : ProjectsDb
  txn : Option ProjectsDb
deriving DecidableEq

/-- The gateway calls issued by POST /register-project, used to inject
failures. -/
inductive RpOp where
  | qCheckStudents
  | qBeginTx
  | qInsertProject
  | qInsertStudent (k : Nat)
  | qCommit
  | qRollback
deriving DecidableEq

/-- POST /register-project body and uploaded file: the handler
destructures exactly these fields (lines 170-182); `file` is
`req.file.path` when multer stored an upload. -/
structure RpRequest where
  title : String
  description : String
  supervisor_name : String
  graduation_year : String
  graduation_term : String
  department_name : String
  github_link : String
  teammateData : List Teammate
  file : Option String
deriving DecidableEq

/-- Outcome of one POST /register-project request: the response sent
(none when an error escaped the handler uncaught), the uncaught error
if any, the final connection state, and whether the uploaded file is
still on disk. -/
structure RpOutcome where
  response : Option (Nat × String)
  uncaught : Option String
  conn : ConnState
  fileOnDisk : Bool
deriving DecidableEq

/-- 400 body message of the duplicate-teammate early exit (line 189). -/
def rpDupMsg : String :=
  "One or more students are already associated with a project"

/-- 201 body message (line 220). -/
def rpOkMsg : String :=
  "Project and student associations created successfully"

/-- 500 body message of the catch block (line 238). -/
def rpErrMsg : String :=
  "Server error during project creation. Transaction has been rolled back."

/-- The project row INSERTed by `insertProject` (lines 285-293):
metadata from the request, file path from multer, and hardcoded
`approval_status = pending`, `total_votes = 0`. -/
def mkProjectRow (pid : Nat) (req : RpRequest) : ProjectRow :=
  { project_id := pid,
    title := req.title,
    description := req.description,
    supervisor_name := req.supervisor_name,
    graduation_year := req.graduation_year,
    graduation_term := req.graduation_term,
    department_name := req.department_name,
    project_files_path := req.file,
    github_link := req.github_link,
    approval_status := "pending",
    total_votes := 0 }

/-- The catch block (lines 222-239): await rollback (if that itself
rejects, the rejection escapes uncaught), then — because `fs` was
never required by this module — the `fs.unlink` call on line 230
throws `ReferenceError: fs is not defined` whenever a file path is
present, so no file is deleted and no response is sent; only the
no-file path reaches the 500 response. -/
def rpCatch (conn : ConnState) (fpath : Option String)
    (fail : RpOp → Bool) : RpOutcome :=
  if fail RpOp.qRollback then
    { response := none, uncaught := some "rollback error escaped the catch block",
      conn := conn, fileOnDisk := fpath.isSome }
  else
    match fpath with
    | some _ =>
      { response := none, uncaught := some "ReferenceError: fs is not defined",
        conn := { conn with txn := none }, fileOnDisk := true }
    | none =>
      { response := some (500, rpErrMsg), uncaught := none,
        conn := { conn with txn := none }, fileOnDisk := false }

/-- Pending view right after `insertProject` succeeded: the project
row is appended and the generated `insertId` consumed. -/
def rpTxnStart (db : ProjectsDb) (req : RpRequest) : ProjectsDb :=
  { projects := db.projects ++ [mkProjectRow db.nextProjectId req],
    project_students := db.project_students,
    nextProjectId := db.nextProjectId + 1 }

/-- The sequential teammate loop (lines 210-214): each
`insertProjectStudent` is awaited before the next starts; a rejection
at teammate `k` aborts the loop with the pending view holding only
teammates `0..k-1`. -/
def insertTeammatesTx (pid : Nat) (fail : RpOp → Bool) :
    ProjectsDb → List Teammate → Nat → Except ProjectsDb ProjectsDb
  | d, [], _ => Except.ok d
  | d, t :: ts, k =>
    if fail (RpOp.qInsertStudent k) then Except.error d
    else insertTeammatesTx pid fail
      { d with project_students := d.project_students ++
          [{ project_id := pid, student_name := t.name,
             student_id := t.studentId }] }
      ts (k + 1)

/-- The part of the handler from `insertProject` onward, inside the
open transaction: the teammate loop, then commit on success of every
insert (lines 196-220), with any rejection routed to the catch
block. -/
def rpWithTxn (conn : ConnState) (req : RpRequest)
    (fail : RpOp → Bool) : RpOutcome :=
  match insertTeammatesTx conn.committed.nextProjectId fail
      (rpTxnStart conn.committed req) req.teammateData 0 with
  | Except.error dpartial => rpCatch { conn with txn := some dpartial } req.file fail
  | Except.ok d2 =>
    if fail RpOp.qCommit then rpCatch { conn with txn := some d2 } req.file fail
    else
      { response := some (201, rpOkMsg), uncaught := none,
        conn := { committed := d2, txn := none },
        fileOnDisk := req.file.isSome }

/-- POST /register-project (lines 169-240): the pre-association check
and its 400 early exit, then begin transaction, insert project, the
teammate loop and commit, with every rejection from the transaction
steps routed to the catch block. -/
def registerProject (conn : ConnState) (req : RpRequest)
    (fail : RpOp → Bool) : RpOutcome :=
  if fail RpOp.qCheckStudents then rpCatch conn req.file fail
  else
    if (conn.committed.project_students.filter (fun r =>
          (req.teammateData.map Teammate.studentId).contains r.student_id)).length
        > 0 then
      { response := some (400, rpDupMsg), uncaught := none, conn := conn,
        fileOnDisk := req.file.isSome }
    else if fail RpOp.qBeginTx then rpCatch conn req.file fail
    else if fail RpOp.qInsertProject then
      rpCatch { conn with txn := some conn.committed } req.file fail
    else rpWithTxn conn req fail

/-! ## Lemmas and theorems for C1-C4 -/

/-- The catch block never changes committed data. -/
theorem rpCatch_committed (conn : ConnState) (fpath : Option String)
    (fail : RpOp → Bool) :
    (rpCatch conn fpath fail).conn.committed = conn.committed := by
  unfold rpCatch
  by_cases h : fail RpOp.qRollback
  · rw [if_pos h]
  · rw [if_neg h]
    cases fpath <;> rfl

/-- The catch block never answers 201. -/
theorem rpCatch_response_ne_201 (conn : ConnState) (fpath : Option String)
    (fail : RpOp → Bool) (m : String) :
    (rpCatch conn fpath fail).response ≠ some (201, m) := by
  unfold rpCatch
  by_cases h : fail RpOp.qRollback
  · rw [if_pos h]
    simp
  · rw [if_neg h]
    cases fpath <;> simp

/-- A successful teammate loop appends exactly one membership row per
teammate, all referencing `pid`, and touches nothing else. -/
theorem insertTeammatesTx_ok (pid : Nat) (fail : RpOp → Bool) :
    ∀ (ts : List Teammate) (d : ProjectsDb) (k : Nat) (d2 : ProjectsDb),
      insertTeammatesTx pid fail d ts k = Except.ok d2 →
      d2 = { d with project_students := d.project_students ++ ts.map (fun t =>
        { project_id := pid, student_name := t.name,
          student_id := t.studentId }) } := by
  intro ts
  induction ts with
  | nil =>
    intro d k d2 h
    simp only [insertTeammatesTx] at h
    cases h
    simp
  | cons t ts ih =>
    intro d k d2 h
    simp only [insertTeammatesTx] at h
    by_cases hf : fail (RpOp.qInsertStudent k)
    · rw [if_pos hf] at h
      cases h
    · rw [if_neg hf] at h
      rw [ih _ _ _ h]
      simp

/-- Core dichotomy of POST /register-project: either it answers 201
and the committed database gained exactly the project row and the
teammate membership rows, or it did not answer 201 and the committed
database is untouched. -/
theorem registerProject_outcome (conn : ConnState) (req : RpRequest)
    (fail : RpOp → Bool) :
    ((registerProject conn req fail).response = some (201, rpOkMsg) ∧
     (registerProject conn req fail).conn.committed =
       { projects := conn.committed.projects ++
           [mkProjectRow conn.committed.nextProjectId req],
         project_students := conn.committed.project_students ++
           req.teammateData.map (fun t =>
             { project_id := conn.committed.nextProjectId,
               student_name := t.name, student_id := t.studentId }),
         nextProjectId := conn.committed.nextProjectId + 1 }) ∨
    ((registerProject conn req fail).response ≠ some (201, rpOkMsg) ∧
     (registerProject conn req fail).conn.committed = conn.committed) := by
  unfold registerProject
  by_cases h1 : fail RpOp.qCheckStudents
  · right
    rw [if_pos h1]
    exact ⟨rpCatch_response_ne_201 _ _ _ _, rpCatch_committed _ _ _⟩
  · rw [if_neg h1]
    by_cases hdup : (conn.committed.project_students.filter (fun r =>
        (req.teammateData.map Teammate.studentId).contains r.student_id)).length > 0
    · right
      rw [if_pos hdup]
      simp
    · rw [if_neg hdup]
      by_cases h2 : fail RpOp.qBeginTx
      · right
        rw [if_pos h2]
        exact ⟨rpCatch_response_ne_201 _ _ _ _, rpCatch_committed _ _ _⟩
      · rw [if_neg h2]
        by_cases h3 : fail RpOp.qInsertProject
        · right
          rw [if_pos h3]
          exact ⟨rpCatch_response_ne_201 _ _ _ _, rpCatch_committed _ _ _⟩
        · rw [if_neg h3]
          unfold rpWithTxn
          cases hins : insertTeammatesTx conn.committed.nextProjectId fail
              (rpTxnStart conn.committed req) req.teammateData 0 with
          | error dpartial =>
            right
            exact ⟨rpCatch_response_ne_201 _ _ _ _, rpCatch_committed _ _ _⟩
          | ok d2 =>
            cases h4 : fail RpOp.qCommit with
            | true =>
              right
              exact ⟨rpCatch_response_ne_201 _ _ _ _, rpCatch_committed _ _ _⟩
            | false =>
              left
              have hd2 := insertTeammatesTx_ok _ _ _ _ _ _ hins
              subst hd2
              refine ⟨rfl, ?_⟩
              simp [rpTxnStart]

/-- C1: a POST /register-project request whose teammates pass the
pre-association check ends with either the project row and one
membership row per teammate committed (response 201), or — on any
failure once the transaction has begun — none of those rows
committed: the inserts live in one transaction that commits only
after every insert succeeds and is otherwise rolled back. -/
theorem register_project_row_atomicity (conn : ConnState) (req : RpRequest)
    (fail : RpOp → Bool)
    (_hpre : conn.committed.project_students.filter (fun r =>
      (req.teammateData.map Teammate.studentId).contains r.student_id) = []) :
    ((registerProject conn req fail).response = some (201, rpOkMsg) ∧
     (registerProject conn req fail).conn.committed.projects =
       conn.committed.projects ++
         [mkProjectRow conn.committed.nextProjectId req] ∧
     (registerProject conn req fail).conn.committed.project_students =
       conn.committed.project_students ++ req.teammateData.map (fun t =>
         { project_id := conn.committed.nextProjectId,
           student_name := t.name, student_id := t.studentId })) ∨
    ((registerProject conn req fail).response ≠ some (201, rpOkMsg) ∧
     (registerProject conn req fail).conn.committed = conn.committed) := by
  rcases registerProject_outcome conn req fail with ⟨h201, hdb⟩ | hother
  · left
    rw [hdb]
    exact ⟨h201, rfl, rfl⟩
  · right
    exact hother

/-- Empty starting connection used in concrete checks. -/
def demoConn : ConnState :=
  { committed := { projects := [], project_students := [], nextProjectId := 1 },
    txn := none }

/-- A two-teammate register-project request with no file. -/
def demoRpReq : RpRequest :=
  { title := "Portal", description := "A graduation project",
    supervisor_name := "Dr Lee", graduation_year := "2024",
    graduation_term := "First", department_name := "CS",
    github_link := "g",
    teammateData := [{ name := "Alice Smith", studentId := 123 },
                     { name := "Bob Stone", studentId := 124 }],
    file := none }

/-- Concrete instantiation of `register_project_row_atomicity`: a
two-teammate registration with no failures commits one project row
and two membership rows. -/
theorem register_project_row_atomicity_w :
    (registerProject demoConn demoRpReq (fun _ => false)).response =
      some (201, rpOkMsg) ∧
    (registerProject demoConn demoRpReq
      (fun _ => false)).conn.committed.project_students.length = 2 := by
  rcases register_project_row_atomicity demoConn demoRpReq (fun _ => false) rfl
    with ⟨h201, _, hps⟩ | ⟨hne, _⟩
  · refine ⟨h201, ?_⟩
    rw [hps]
    decide
  · exact absurd (by decide) hne

/-- A copy of `demoRpReq` carrying an uploaded file path. -/
def demoRpReqFile : RpRequest :=
  { demoRpReq with file := some "project_files/1700000000000.rar" }

/-- Failure oracle rejecting exactly the project INSERT. -/
def failProjectInsertOnly : RpOp → Bool
  | RpOp.qInsertProject => true
  | _ => false

/-- C2 exhibit: on a post-begin failure with an uploaded file the
catch block rolls back, but its `fs.unlink` call throws
`ReferenceError: fs is not defined` (authentication.js never requires
`fs`), so the file is not deleted and no 500 response is sent; only
the committed rows stay consistent. -/
theorem register_project_catch_fs_reference_error :
    (registerProject demoConn demoRpReqFile failProjectInsertOnly).response = none ∧
    (registerProject demoConn demoRpReqFile failProjectInsertOnly).uncaught =
      some "ReferenceError: fs is not defined" ∧
    (registerProject demoConn demoRpReqFile failProjectInsertOnly).fileOnDisk = true ∧
    (registerProject demoConn demoRpReqFile failProjectInsertOnly).conn.committed =
      demoConn.committed := by
  refine ⟨rfl, rfl, rfl, rfl⟩

/-- The no-file half of the catch block does reach the 500 response
after the rollback, as the spec describes. -/
theorem register_project_catch_no_file_500 :
    (registerProject demoConn demoRpReq failProjectInsertOnly).response =
      some (500, rpErrMsg) ∧
    (registerProject demoConn demoRpReq failProjectInsertOnly).uncaught = none := by
  refine ⟨rfl, rfl⟩

/-- C3: when some teammate's student ID already has a team-membership
row and the pre-check query itself succeeds, POST /register-project
answers 400 before opening a transaction or inserting anything: the
connection state is completely unchanged and the uploaded file, if
any, stays on disk. -/
theorem register_project_duplicate_teammate_early_400
    (conn : ConnState) (req : RpRequest) (fail : RpOp → Bool)
    (hck : fail RpOp.qCheckStudents = false)
    (hdup : conn.committed.project_students.filter (fun r =>
      (req.teammateData.map Teammate.studentId).contains r.student_id) ≠ []) :
    (registerProject conn req fail).response = some (400, rpDupMsg) ∧
    (registerProject conn req fail).conn = conn ∧
    (registerProject conn req fail).uncaught = none ∧
    (registerProject conn req fail).fileOnDisk = req.file.isSome := by
  unfold registerProject
  rw [hck]
  rw [if_neg Bool.false_ne_true]
  rw [if_pos (List.length_pos.mpr hdup)]
  exact ⟨rfl, rfl, rfl, rfl⟩

/-- A connection whose project_students table already holds student
123, who is also a teammate of `demoRpReq`. -/
def demoDupConn : ConnState :=
  { committed :=
      { projects := [],
        project_students := [{ project_id := 7, student_name := "Alice Smith",
                               student_id := 123 }],
        nextProjectId := 8 },
    txn := none }

/-- Concrete instantiation of
`register_project_duplicate_teammate_early_400`. -/
theorem register_project_duplicate_teammate_early_400_w :
    (registerProject demoDupConn demoRpReqFile (fun _ => false)).response =
      some (400, rpDupMsg) ∧
    (registerProject demoDupConn demoRpReqFile (fun _ => false)).conn = demoDupConn ∧
    (registerProject demoDupConn demoRpReqFile (fun _ => false)).fileOnDisk = true :=
  have h := register_project_duplicate_teammate_early_400 demoDupConn demoRpReqFile
    (fun _ => false) rfl (by decide)
  ⟨h.1, h.2.1, h.2.2.2⟩

/-- C4: every 201 of POST /register-project committed a project row
with `approval_status` exactly "pending" and `total_votes` exactly 0
(the INSERT hardcodes both, and the request body carries no such
fields), and every membership row inserted by the same request
references that row's generated project ID. -/
theorem register_project_pending_zero_votes_linked
    (conn : ConnState) (req : RpRequest) (fail : RpOp → Bool)
    (h201 : (registerProject conn req fail).response = some (201, rpOkMsg)) :
    ∃ pid,
      (registerProject conn req fail).conn.committed.projects =
        conn.committed.projects ++ [mkProjectRow pid req] ∧
      (mkProjectRow pid req).approval_status = "pending" ∧
      (mkProjectRow pid req).total_votes = 0 ∧
      (registerProject conn req fail).conn.committed.project_students =
        conn.committed.project_students ++ req.teammateData.map (fun t =>
          { project_id := pid, student_name := t.name,
            student_id := t.studentId }) := by
  rcases registerProject_outcome conn req fail with ⟨_, hdb⟩ | ⟨hne, _⟩
  · exact ⟨conn.committed.nextProjectId, by rw [hdb], rfl, rfl, by rw [hdb]⟩
  · exact absurd h201 hne

/-- Concrete instantiation of
`register_project_pending_zero_votes_linked`. -/
theorem register_project_pending_zero_votes_linked_w :
    ∃ pid,
      (registerProject demoConn demoRpReq (fun _ => false)).conn.committed.projects =
        demoConn.committed.projects ++ [mkProjectRow pid demoRpReq] ∧
      (mkProjectRow pid demoRpReq).approval_status = "pending" ∧
      (mkProjectRow pid demoRpReq).total_votes = 0 ∧
      (registerProject demoConn demoRpReq
          (fun _ => false)).conn.committed.project_students =
        demoConn.committed.project_students ++ demoRpReq.teammateData.map (fun t =>
          { project_id := pid, student_name := t.name,
            student_id := t.studentId }) :=
  register_project_pending_zero_votes_linked demoConn demoRpReq (fun _ => false)
    (by decide)

/-! ## Delete-by-ID endpoints
(src/routes/authentication.js lines 347-357, 433-457, 566-588, and
the admin copies at src/routes/admin.js lines 119-151) -/

/-- Filtering out an absent element changes nothing. -/
theorem filter_bne_eq_self {α : Type} [DecidableEq α] (a : α) :
    ∀ l : List α, a ∉ l → l.filter (fun c => c != a) = l := by
  intro l
  induction l with
  | nil => intro _; rfl
  | cons b bs ih =>
    intro h
    have hb : b ≠ a := fun hba => h (by rw [hba]; exact List.mem_cons_self _ _)
    have hbs : a ∉ bs := fun hm => h (List.mem_cons_of_mem _ hm)
    simp [List.filter_cons, hb, ih hbs]

/-- Filtering out a present element strictly shortens the list. -/
theorem filter_bne_length_lt {α : Type} [DecidableEq α] (a : α) :
    ∀ l : List α, a ∈ l → (l.filter (fun c => c != a)).length < l.length := by
  intro l
  induction l with
  | nil => intro h; cases h
  | cons b bs ih =>
    intro h
    by_cases hb : b = a
    · subst hb
      simp only [List.filter_cons, bne_self_eq_false, Bool.false_eq_true,
        if_false, List.length_cons]
      exact Nat.lt_succ_of_le (List.length_filter_le _ _)
    · have ha : a ∈ bs := by
        rcases List.mem_cons.mp h with h1 | h2
        · exact absurd h1.symm hb
        · exact h2
      simp only [List.filter_cons, List.length_cons]
      have hbne : (b != a) = true := by simp [hb]
      rw [if_pos hbne]
      simpa using Nat.succ_lt_succ (ih ha)

/-- DELETE /projects/:id (lines 347-357): runs the DELETE and answers
200 whenever the query succeeds — `affectedRows` is never consulted. -/
def deleteProjectById (db : ProjectsDb) (projectId : Nat)
    (dbErr : Bool) : Nat × ProjectsDb :=
  if dbErr then (500, db)
  else
    (200,
     { db with projects := db.projects.filter (fun p => p.project_id != projectId) })

/-- DELETE /delete-comment/:comment_id (lines 433-457): answers 200
when `affectedRows > 0`, else 404.  Rows are tracked by their ID, the
only column the statement consults. -/
def deleteCommentById (comments : List Nat) (comment_id : Nat)
    (dbErr : Bool) : Nat × List Nat :=
  if dbErr then (500, comments)
  else
    if comments.length - (comments.filter (fun c => c != comment_id)).length
        > 0 then
      (200, comments.filter (fun c => c != comment_id))
    else
      (404, comments.filter (fun c => c != comment_id))

/-- DELETE /delete-bookmarks/:bookmark_id (lines 566-588): same
affectedRows check as comment deletion. -/
def deleteBookmarkById (bookmarks : List Nat) (bookmark_id : Nat)
    (dbErr : Bool) : Nat × List Nat :=
  if dbErr then (500, bookmarks)
  else
    if bookmarks.length - (bookmarks.filter (fun b => b != bookmark_id)).length
        > 0 then
      (200, bookmarks.filter (fun b => b != bookmark_id))
    else
      (404, bookmarks.filter (fun b => b != bookmark_id))

/-- DELETE /delete-student/:student_id (lines 694-708): same
affectedRows check, on the students table's integer IDs. -/
def deleteStudentById (students : List Int) (student_id : Int)
    (dbErr : Bool) : Nat × List Int :=
  if dbErr then (500, students)
  else
    if students.length - (students.filter (fun s => s != student_id)).length
        > 0 then
      (200, students.filter (fun s => s != student_id))
    else
      (404, students.filter (fun s => s != student_id))

/-- C7 counterexample: DELETE /projects/:id with an ID that matches no
row answers 200, not 404 — the project delete handler never checks
`affectedRows`, unlike the comment/bookmark/student deletes. -/
theorem delete_project_missing_id_200 :
    ({ projects := [], project_students := [],
       nextProjectId := 1 } : ProjectsDb).projects = [] ∧
    (deleteProjectById
        { projects := [], project_students := [], nextProjectId := 1 }
        1 false).1 = 200 ∧
    (200 : Nat) ≠ 404 := by
  refine ⟨rfl, rfl, by decide⟩

/-- C7 amended: the comment, bookmark and student delete endpoints
answer 404 and change nothing when the ID matches no row, and answer
200 and remove the row when it does; the project delete endpoint
removes any matching rows but answers 200 regardless of whether a row
matched. -/
theorem delete_by_id_statuses
    (db : ProjectsDb) (comments bookmarks : List Nat) (students : List Int)
    (pid cid bid : Nat) (sid : Int) :
    ((deleteProjectById db pid false).1 = 200 ∧
     (deleteProjectById db pid false).2.projects =
       db.projects.filter (fun p => p.project_id != pid)) ∧
    (cid ∉ comments → deleteCommentById comments cid false = (404, comments)) ∧
    (cid ∈ comments → (deleteCommentById comments cid false).1 = 200 ∧
       cid ∉ (deleteCommentById comments cid false).2) ∧
    (bid ∉ bookmarks → deleteBookmarkById bookmarks bid false = (404, bookmarks)) ∧
    (bid ∈ bookmarks → (deleteBookmarkById bookmarks bid false).1 = 200 ∧
       bid ∉ (deleteBookmarkById bookmarks bid false).2) ∧
    (sid ∉ students → deleteStudentById students sid false = (404, students)) ∧
    (sid ∈ students → (deleteStudentById students sid false).1 = 200 ∧
       sid ∉ (deleteStudentById students sid false).2) := by
  refine ⟨⟨by simp [deleteProjectById], by simp [deleteProjectById]⟩,
    ?_, ?_, ?_, ?_, ?_, ?_⟩
  · intro hnm
    unfold deleteCommentById
    rw [if_neg Bool.false_ne_true, filter_bne_eq_self cid comments hnm]
    rw [if_neg (by simp)]
  · intro hm
    unfold deleteCommentById
    rw [if_neg Bool.false_ne_true,
      if_pos (Nat.sub_pos_of_lt (filter_bne_length_lt cid comments hm))]
    exact ⟨rfl, by simp⟩
  · intro hnm
    unfold deleteBookmarkById
    rw [if_neg Bool.false_ne_true, filter_bne_eq_self bid bookmarks hnm]
    rw [if_neg (by simp)]
  · intro hm
    unfold deleteBookmarkById
    rw [if_neg Bool.false_ne_true,
      if_pos (Nat.sub_pos_of_lt (filter_bne_length_lt bid bookmarks hm))]
    exact ⟨rfl, by simp⟩
  · intro hnm
    unfold deleteStudentById
    rw [if_neg Bool.false_ne_true, filter_bne_eq_self sid students hnm]
    rw [if_neg (by simp)]
  · intro hm
    unfold deleteStudentById
    rw [if_neg Bool.false_ne_true,
      if_pos (Nat.sub_pos_of_lt (filter_bne_length_lt sid students hm))]
    exact ⟨rfl, by simp⟩

/-- Concrete instantiation of `delete_by_id_statuses`. -/
theorem delete_by_id_statuses_w :
    (deleteCommentById [5] 5 false).1 = 200 ∧
    deleteCommentById [3] 5 false = (404, [3]) := by
  have h1 := delete_by_id_statuses
    { projects := [], project_students := [], nextProjectId := 1 }
    [5] [] [] 1 5 1 1
  have h2 := delete_by_id_statuses
    { projects := [], project_students := [], nextProjectId := 1 }
    [3] [] [] 1 5 1 1
  exact ⟨(h1.2.2.1 (by decide)).1, h2.2.1 (by decide)⟩

/-! ## Admin department taxonomy (src/routes/admin.js lines 154-220)

The allowed-value set is the literal list in the `department_name`
column's ENUM definition (`stored`).  Both handlers introspect the
column and parse out the quoted literals, filtering empty strings
(`currentOptions`), then rewrite the whole ENUM definition from
`currentOptions`; `alterOk` is the outcome of that ALTER TABLE. -/

/-- POST /departments (lines 154-184): 400 when the name is already
among the parsed options, otherwise rewrite the ENUM as the parsed
options plus the new name. -/
def addDepartment (stored : List String) (department_name : String)
    (alterOk : Bool) : Nat × List String :=
  if (stored.filter (fun o => o != "")).contains department_name then
    (400, stored)
  else if alterOk then
    (200, stored.filter (fun o => o != "") ++ [department_name])
  else
    (500, stored)

/-- DELETE /departments (lines 187-220): 400 when the name is missing
or empty (the JS falsy-check on the request body), 404 when it is not
among the parsed options, otherwise rewrite the ENUM as the parsed
options without the name. -/
def deleteDepartment (stored : List String)
    (department_name : Option String) (alterOk : Bool) : Nat × List String :=
  match department_name with
  | none => (400, stored)
  | some name =>
    if name = "" then (400, stored)
    else if (stored.filter (fun o => o != "")).contains name = false then
      (404, stored)
    else if alterOk then
      (200, (stored.filter (fun o => o != "")).filter (fun o => o != name))
    else
      (500, stored)

/-- C5 counterexample: the empty string is not in the allowed-value
set ["CS", "IS"], yet DELETE /departments with it answers 400 (the
required-field falsy check fires first), not 404, so "deleting a name
not in the set returns 404" fails at this input. -/
theorem delete_department_empty_name_400 :
    "" ∉ (["CS", "IS"] : List String) ∧
    deleteDepartment ["CS", "IS"] (some "") true = (400, ["CS", "IS"]) ∧
    (400 : Nat) ≠ 404 := by
  refine ⟨by decide, rfl, by decide⟩

/-- C5 amended: on an allowed-value list without the empty string,
adding a present name answers 400 and changes nothing; deleting a
non-empty absent name answers 404 and changes nothing, while deleting
a missing or empty name answers 400 and changes nothing; and adding a
non-empty absent name then deleting it restores the original list
exactly. -/
theorem departments_taxonomy_roundtrip
    (stored : List String) (name : String)
    (hne : "" ∉ stored) :
    (name ∈ stored → ∀ b, addDepartment stored name b = (400, stored)) ∧
    (name ≠ "" → name ∉ stored →
       ∀ b, deleteDepartment stored (some name) b = (404, stored)) ∧
    (∀ b, deleteDepartment stored none b = (400, stored) ∧
          deleteDepartment stored (some "") b = (400, stored)) ∧
    (name ≠ "" → name ∉ stored →
       (addDepartment stored name true).1 = 200 ∧
       deleteDepartment (addDepartment stored name true).2 (some name) true =
         (200, stored)) := by
  have hfs : stored.filter (fun o => o != "") = stored :=
    filter_bne_eq_self "" stored hne
  refine ⟨?_, ?_, ?_, ?_⟩
  · intro hm b
    unfold addDepartment
    rw [hfs, if_pos (List.elem_iff.mpr hm)]
  · intro hname hnm b
    have hcf : stored.contains name = false := by
      rw [Bool.eq_false_iff]
      intro hc
      exact hnm (List.elem_iff.mp hc)
    simp only [deleteDepartment]
    rw [if_neg hname, hfs, hcf]
    rw [if_pos rfl]
  · intro b
    exact ⟨rfl, rfl⟩
  · intro hname hnm
    have hcf : stored.contains name = false := by
      rw [Bool.eq_false_iff]
      intro hc
      exact hnm (List.elem_iff.mp hc)
    have hadd : addDepartment stored name true = (200, stored ++ [name]) := by
      unfold addDepartment
      rw [hfs, hcf]
      rw [if_neg Bool.false_ne_true, if_pos rfl]
    refine ⟨by rw [hadd], ?_⟩
    have hsnd : (addDepartment stored name true).2 = stored ++ [name] := by
      rw [hadd]
    rw [hsnd]
    have hne2 : "" ∉ stored ++ [name] := by
      intro hm
      rcases List.mem_append.mp hm with h1 | h2
      · exact hne h1
      · exact hname (List.mem_singleton.mp h2).symm
    have hfs2 : (stored ++ [name]).filter (fun o => o != "") = stored ++ [name] :=
      filter_bne_eq_self "" (stored ++ [name]) hne2
    have hct : (stored ++ [name]).contains name = true :=
      List.elem_iff.mpr (List.mem_append.mpr (Or.inr (List.mem_singleton.mpr rfl)))
    simp only [deleteDepartment]
    rw [if_neg hname, hfs2, hct]
    rw [if_neg (by decide), if_pos trivial]
    rw [List.filter_append, filter_bne_eq_self name stored hnm]
    simp

/-- Concrete instantiation of `departments_taxonomy_roundtrip`. -/
theorem departments_taxonomy_roundtrip_w :
    (∀ b, addDepartment ["CS", "IS"] "CS" b = (400, ["CS", "IS"])) ∧
    (∀ b, deleteDepartment ["CS", "IS"] (some "Math") b = (404, ["CS", "IS"])) ∧
    deleteDepartment (addDepartment ["CS", "IS"] "Math" true).2 (some "Math")
      true = (200, ["CS", "IS"]) := by
  have h := departments_taxonomy_roundtrip ["CS", "IS"] "Math" (by decide)
  have h2 := departments_taxonomy_roundtrip ["CS", "IS"] "CS" (by decide)
  exact ⟨h2.1 (by decide), h.2.1 (by decide) (by decide),
    (h.2.2.2 (by decide) (by decide)).2⟩
